import Mathlib

/-!
# Co-ATC: shallow embedding and verification of core algorithms

This development embeds the core algorithms of the Co-ATC airspace
situational-awareness service in Lean and proves a set of claims taken
from the service's specification.

Covered components:
* ADS-B sensor-error validation and flying classification
  (`internal/adsb/client.go`: `ValidateSensorData`, `IsFlying`);
* trajectory prediction (`internal/adsb/client.go`: `PredictFuturePositions`);
* the aircraft change detector (`DetectChanges` / `hasAnyChanges`);
* the audio multi-fanout circular buffer (`internal/audio/multireader.go`);
* the weather fetcher's retry loop (`internal/weather/client.go`);
* the streaming WAV header synthesizer (`createWAVHeader`);
* the transcription post-processor batch step
  (`internal/transcription/models.go`: `processNextBatch`).

Go `float64` values are modelled as rationals (`ℚ`): the claims checked
here depend only on orderings, equalities and field-arithmetic identities,
not on binary floating-point rounding.  Transcendental geometry primitives
(`math.Sin`, `math.Cos`, `Haversine`, `Bearing`) are abstracted as oracle
function parameters where a routine consumes them.
-/

namespace CoATC

/-! ## Flight-phases configuration

Fields of `config.FlightPhasesConfig` read by the embedded functions
(the `internal/config` package itself is outside the embedded sources;
field names and their uses are taken from `internal/adsb/client.go`). -/

structure FlightPhasesConfig where
  flyingMinTASKts : ℚ
  flyingMinAltFt : ℚ
  highAltitudeOverrideFt : ℚ
  helicopterAltMultiplier : ℚ
  highSpeedThresholdKts : ℚ
  impossibleAltDropThresholdFt : ℚ
  impossibleSpeedDropThresholdKts : ℚ
  impossibleSpeedDropMinAltFt : ℚ
  deriving DecidableEq, Repr

/-! ## Sensor validation (`ValidateSensorData`, `internal/adsb/client.go`)

The Go function receives the aircraft and station coordinates and computes
`distanceToAirportNM := MetersToNM(Haversine(aircraftLat, aircraftLon,
stationLat, stationLon))`; the embedding takes that derived quantity as the
`distanceToAirportNM` parameter directly, so every theorem below quantifies
over all possible distances. -/

/-- `ValidateSensorData` from `internal/adsb/client.go`: detects and corrects
likely sensor errors when values suddenly drop to 0 from previously high
values.  Returns `(correctedTAS, correctedGS, correctedAlt)`. -/
def ValidateSensorData (currentTAS currentGS currentAlt prevTAS prevGS prevAlt
    distanceToAirportNM airportRangeNM : ℚ) (config : FlightPhasesConfig) :
    ℚ × ℚ × ℚ :=
  let correctedAlt : ℚ :=
    if currentAlt = 0 ∧ prevAlt > config.impossibleAltDropThresholdFt then
      -- Impossible drop from cruise altitude to zero - definitely sensor error
      prevAlt
    else if currentAlt = 0 ∧ prevAlt > 5000 ∧ distanceToAirportNM > airportRangeNM then
      -- High altitude drop when far from airport - likely sensor error
      prevAlt
    else if currentAlt = 0 ∧ prevAlt > 1000 ∧ distanceToAirportNM > airportRangeNM then
      -- Original logic: only apply when far from airport for lower altitudes
      prevAlt
    else currentAlt
  let correctedTAS : ℚ :=
    if currentTAS = 0 ∧ prevTAS > config.impossibleSpeedDropThresholdKts ∧
        prevAlt > config.impossibleSpeedDropMinAltFt then
      prevTAS
    else if currentTAS = 0 ∧ prevTAS > 42 ∧ distanceToAirportNM > airportRangeNM then
      prevTAS
    else currentTAS
  let correctedGS : ℚ :=
    if currentGS = 0 ∧ prevGS > config.impossibleSpeedDropThresholdKts ∧
        prevAlt > config.impossibleSpeedDropMinAltFt then
      prevGS
    else if currentGS = 0 ∧ prevGS > 42 ∧ distanceToAirportNM > airportRangeNM then
      prevGS
    else currentGS
  -- If all three values (alt, TAS, GS) drop to zero simultaneously from high
  -- values, this is almost certainly signal loss
  if currentAlt = 0 ∧ currentTAS = 0 ∧ currentGS = 0 ∧
      prevAlt > 1000 ∧ (prevTAS > 50 ∨ prevGS > 50) then
    (prevTAS, prevGS, prevAlt)
  else
    (correctedTAS, correctedGS, correctedAlt)

/-- `IsFlying` from `internal/adsb/client.go`: determines if an aircraft is
considered to be flying based on speed and altitude.  If TAS is 0, ground
speed is used as a backup. -/
def IsFlying (tas gs altitude : ℚ) (config : FlightPhasesConfig) : Bool :=
  let speed := if tas = 0 then gs else tas
  if altitude ≥ config.highAltitudeOverrideFt then
    true
  else if speed ≥ config.flyingMinTASKts ∧ altitude ≥ config.flyingMinAltFt then
    true
  else if altitude ≥ config.flyingMinAltFt * config.helicopterAltMultiplier ∧
      speed > config.flyingMinTASKts / 2 then
    true
  else if speed ≥ config.highSpeedThresholdKts then
    true
  else
    false

/-! ## Change detector (`DetectChanges` / `hasAnyChanges`)

The Go detector keeps `previousAircraft map[string]*Aircraft`.  Go maps are
modelled as association lists without duplicate keys; `mapInsert` overwrites
an existing binding in place, as a Go map assignment does.  The Go `range`
iteration order over a map is unspecified; the model iterates in list order
(the claims proved below do not depend on iteration order). -/

def mapInsert {α : Type} (m : List (String × α)) (k : String) (v : α) :
    List (String × α) :=
  match m with
  | [] => [(k, v)]
  | (k', v') :: rest =>
    if k' = k then (k, v) :: rest else (k', v') :: mapInsert rest k v

def mapLookup {α : Type} (m : List (String × α)) (k : String) : Option α :=
  match m with
  | [] => none
  | (k', v') :: rest => if k' = k then some v' else mapLookup rest k

/-- Go `delete(m, k)`. -/
def mapRemove {α : Type} (m : List (String × α)) (k : String) :
    List (String × α) :=
  m.filter fun e => e.1 ≠ k

/-- Keys of an association-list map are pairwise distinct (the invariant of a
Go map). -/
def KeysNodup {α : Type} (m : List (String × α)) : Prop :=
  m.Pairwise fun a b => a.1 ≠ b.1

/-- The per-sample ADS-B fields compared by the change detector. -/
structure ADSBData where
  lat : ℚ
  lon : ℚ
  altBaro : ℚ
  track : ℚ
  gs : ℚ
  tas : ℚ
  baroRate : ℚ
  magHeading : ℚ
  trueHeading : ℚ
  deriving DecidableEq, Repr

/-- A phase-history entry `(phase, entered_at)`; the detector compares phase
data with `reflect.DeepEqual`, i.e. structural equality. -/
structure PhaseChange where
  phase : String
  enteredAt : ℚ
  deriving DecidableEq, Repr

/-- The aircraft fields read by `DetectChanges` / `hasAnyChanges`. -/
structure Aircraft where
  hex : String
  flight : String
  status : String
  onGround : Bool
  adsb : Option ADSBData
  phase : Option (List PhaseChange)
  distance : Option ℚ
  lastSeen : ℚ
  deriving DecidableEq, Repr

/-- A change event emitted by the detector: `type` is `"added"`, `"updated"`
or `"removed"`; removed entries carry no aircraft body. -/
structure AircraftChange where
  type : String
  aircraft : Option Aircraft
  hex : String
  deriving DecidableEq, Repr

/-- `hasAnyChanges` from the change detector: true if ANY compared field
differs (no thresholds).  The Go `*float64` distance comparison
`(p == nil) != (c == nil) || (p != nil && c != nil && *p != *c)` is exactly
inequality of the corresponding `Option ℚ` values. -/
def hasAnyChanges (previous current : Aircraft) : Bool :=
  let adsbChanged : Bool :=
    match previous.adsb, current.adsb with
    | some p, some c =>
      if p.lat ≠ c.lat ∨ p.lon ≠ c.lon then true
      else if p.altBaro ≠ c.altBaro then true
      else if p.track ≠ c.track then true
      else if p.gs ≠ c.gs then true
      else if p.tas ≠ c.tas then true
      else if p.baroRate ≠ c.baroRate then true
      else if p.magHeading ≠ c.magHeading then true
      else if p.trueHeading ≠ c.trueHeading then true
      else false
    | none, none => false
    | _, _ => true
  if adsbChanged then true
  else if previous.flight ≠ current.flight then true
  else if previous.status ≠ current.status then true
  else if previous.onGround ≠ current.onGround then true
  else if previous.phase ≠ current.phase then true
  else if previous.distance ≠ current.distance then true
  else if previous.lastSeen ≠ current.lastSeen then true
  else false

/-- The change detector's state: the previous aircraft map. -/
structure ChangeDetector where
  previousAircraft : List (String × Aircraft)

/-- The added/updated pass of `DetectChanges` (the Go `range` over the
current map). -/
def detectAddedUpdated (prev : List (String × Aircraft)) :
    List (String × Aircraft) → List AircraftChange
  | [] => []
  | kv :: rest =>
    (match mapLookup prev kv.1 with
     | some previous =>
       if hasAnyChanges previous kv.2 then
         [{ type := "updated", aircraft := some kv.2, hex := kv.1 }]
       else []
     | none => [{ type := "added", aircraft := some kv.2, hex := kv.1 }]) ++
    detectAddedUpdated prev rest

/-- The removed pass of `DetectChanges` (the Go `range` over the previous
map). -/
def detectRemoved (currentMap : List (String × Aircraft)) :
    List (String × Aircraft) → List AircraftChange
  | [] => []
  | kv :: rest =>
    (match mapLookup currentMap kv.1 with
     | some _ => []
     | none => [{ type := "removed", aircraft := none, hex := kv.1 }]) ++
    detectRemoved currentMap rest

/-- Build the current-aircraft map keyed by hex (the first loop of
`DetectChanges`). -/
def buildMap (currentAircraft : List Aircraft) : List (String × Aircraft) :=
  currentAircraft.foldl (fun m a => mapInsert m a.hex a) []

/-- `DetectChanges`: diffs the current aircraft list against the previous
map, then replaces the previous map with the current one. -/
def DetectChanges (cd : ChangeDetector) (currentAircraft : List Aircraft) :
    List AircraftChange × ChangeDetector :=
  let currentMap := buildMap currentAircraft
  (detectAddedUpdated cd.previousAircraft currentMap ++
    detectRemoved currentMap cd.previousAircraft,
   { previousAircraft := currentMap })

/-! ## Weather fetcher retry loop (`fetchWithRetry`, `internal/weather/client.go`)

The Go loop `for attempt := 0; attempt <= maxRetries; attempt++` sleeps
`500*(1<<(attempt-1))` milliseconds before every retry (`attempt > 0`),
returns the parsed data on the first success, and returns `(nil, lastErr)`
after the loop when every attempt failed.  The HTTP-request/decode pipeline
of one attempt is abstracted as `oracle : ℕ → Except String α` giving the
outcome of each attempt; the model additionally records the list of backoff
delays slept (in milliseconds). -/

def fetchWithRetryAux {α : Type} (oracle : ℕ → Except String α)
    (maxRetries attempt : ℕ) (lastErr : Option String) (delays : List ℕ) :
    Option α × Option String × List ℕ :=
  if _h : attempt ≤ maxRetries then
    let delays' := if attempt > 0 then delays ++ [500 * 2 ^ (attempt - 1)] else delays
    match oracle attempt with
    | .ok data => (some data, none, delays')
    | .error e => fetchWithRetryAux oracle maxRetries (attempt + 1) (some e) delays'
  else
    (none, lastErr, delays)
termination_by maxRetries + 1 - attempt

/-- `fetchWithRetry`: result data, final error, and backoff delays slept. -/
def fetchWithRetry {α : Type} (oracle : ℕ → Except String α)
    (maxRetries : ℕ) : Option α × Option String × List ℕ :=
  fetchWithRetryAux oracle maxRetries 0 none []

/-! ## Streaming WAV header (`createWAVHeader`, audio helpers in
`internal/weather/models.go`)

Bytes are `ℕ` values below 256; Go `uint32`/`uint16` truncation is modelled
with `% 2^32` / `% 2^16`.  `le16`/`le32` are `binary.LittleEndian.PutUint16/32`. -/

def le16 (v : ℕ) : List ℕ := [v % 256, v / 256 % 256]

def le32 (v : ℕ) : List ℕ :=
  [v % 256, v / 2 ^ 8 % 256, v / 2 ^ 16 % 256, v / 2 ^ 24 % 256]

/-- Decode a little-endian byte sequence into its numeric value. -/
def leDecode (bytes : List ℕ) : ℕ :=
  bytes.foldr (fun b acc => b + 2 ^ 8 * acc) 0

/-- Extract the `len`-byte field at offset `off` of a header. -/
def wavField (bytes : List ℕ) (off len : ℕ) : List ℕ :=
  (bytes.drop off).take len

/-- `createWAVHeader`: the 44-byte streaming PCM WAV header synthesized for
HTTP listeners.  `dataSize` is `uint32(0xFFFFFFFF - 36)` ("max size minus
header size") and the RIFF chunk size is `36 + dataSize`. -/
def createWAVHeader (sampleRate channels : ℕ) : List ℕ :=
  let bitsPerSample : ℕ := 16
  let byteRate : ℕ := sampleRate * channels * (bitsPerSample / 8) % 2 ^ 32
  let blockAlign : ℕ := channels * (bitsPerSample / 8) % 2 ^ 16
  let dataSize : ℕ := 0xFFFFFFFF - 36
  let chunkSize : ℕ := (36 + dataSize) % 2 ^ 32
  [82, 73, 70, 70] ++ le32 chunkSize ++
  [87, 65, 86, 69] ++
  [102, 109, 116, 32] ++ le32 16 ++ le16 1 ++ le16 (channels % 2 ^ 16) ++
  le32 (sampleRate % 2 ^ 32) ++ le32 byteRate ++ le16 blockAlign ++
  le16 bitsPerSample ++
  [100, 97, 116, 97] ++ le32 dataSize

/-! ## Trajectory prediction (`PredictFuturePositions`, `internal/adsb/client.go`)

The transcendental primitives consumed by the predictor (`math.Sin`,
`math.Cos` composed with the degree→radian conversion `x*π/180`, `Haversine`
in meters, and `Bearing` in degrees) are abstracted as an oracle `GeoFns`;
every theorem below holds for all oracles.  Time is measured in minutes
(`now.Add(minutesAhead * time.Minute)` becomes `nowMin + minutesAhead`).
`SPEED_ADJUST_RANGE_NM = 10` and `SPEED_ADJUST_PERCENT = 0.25`. -/

structure GeoFns where
  sinDeg : ℚ → ℚ
  cosDeg : ℚ → ℚ
  haversineM : ℚ → ℚ → ℚ → ℚ → ℚ
  bearingDeg : ℚ → ℚ → ℚ → ℚ → ℚ

/-- A predicted position sample (the `Position` fields written by
`PredictFuturePositions`). -/
structure Position where
  lat : ℚ
  lon : ℚ
  altitude : ℚ
  speedTrue : ℚ
  speedGS : ℚ
  trueHeading : ℚ
  magHeading : ℚ
  timestampMin : ℚ
  deriving DecidableEq, Repr

/-- Distance to the station in nautical miles:
`Haversine(...)/METERS_PER_NM` with `METERS_PER_NM = 1852`. -/
def distToStationNM (g : GeoFns) (lat lon stationLat stationLon : ℚ) : ℚ :=
  g.haversineM lat lon stationLat stationLon / 1852

/-- The angular difference used to decide approach vs departure:
`|trueHeading - bearing|`, folded into `[0, 180]`. -/
def headingDiffDeg (trueHeading bearing : ℚ) : ℚ :=
  let d := |trueHeading - bearing|
  if d > 180 then 360 - d else d

/-- `approachingStation`: the aircraft is heading toward the station iff the
heading/bearing difference is under 90 degrees. -/
def approachingStation (g : GeoFns) (lat lon trueHeading stationLat stationLon : ℚ) :
    Bool :=
  headingDiffDeg trueHeading (g.bearingDeg lat lon stationLat stationLon) < 90

/-- One iteration of the prediction loop of `PredictFuturePositions`
(`minutesAhead = i + 1`).  Note that the Go loop adjusts only the *reported*
speed (`adjustedSpeed`); the advanced position always uses the unadjusted
`speedKmPerMin` (`adjustedSpeedKmPerMin` is never reassigned in the
source). -/
def predictSample (g : GeoFns)
    (lat lon altBaro trueHeading magHeading speedKnots verticalRateFtMin
      stationLat stationLon nowMin : ℚ) (i : ℕ) : Position :=
  let speedKmPerMin := speedKnots * (1852 / 1000) / 60
  let latKmPerDegree : ℚ := 111
  let lonKmPerDegree := 111 * g.cosDeg lat
  let approaching := approachingStation g lat lon trueHeading stationLat stationLon
  let minutesAhead : ℚ := (i : ℚ) + 1
  let latChange := speedKmPerMin * minutesAhead * g.cosDeg trueHeading / latKmPerDegree
  let lonChange := speedKmPerMin * minutesAhead * g.sinDeg trueHeading / lonKmPerDegree
  let newLat := lat + latChange
  let newLon := lon + lonChange
  let predictedDistanceToStationNM := distToStationNM g newLat newLon stationLat stationLon
  let adjustedSpeed :=
    if predictedDistanceToStationNM < 10 then
      let adjustmentFactor := (10 - predictedDistanceToStationNM) / 10
      if approaching then speedKnots * (1 - 1 / 4 * adjustmentFactor)
      else speedKnots * (1 + 1 / 4 * adjustmentFactor)
    else speedKnots
  let newAltitude0 := altBaro + verticalRateFtMin * minutesAhead
  let newAltitude :=
    if approaching ∧ newAltitude0 < 0 then
      if newAltitude0 < -100 then -100 else newAltitude0
    else newAltitude0
  { lat := newLat, lon := newLon, altitude := newAltitude,
    speedTrue := adjustedSpeed, speedGS := adjustedSpeed,
    trueHeading := trueHeading, magHeading := magHeading,
    timestampMin := nowMin + minutesAhead }

/-- `PredictFuturePositions`: the 5-sample prediction ring (1 to 5 minutes
ahead). -/
def PredictFuturePositions (g : GeoFns)
    (lat lon altBaro trueHeading magHeading speedKnots verticalRateFtMin
      stationLat stationLon nowMin : ℚ) : List Position :=
  (List.range 5).map
    (predictSample g lat lon altBaro trueHeading magHeading speedKnots
      verticalRateFtMin stationLat stationLon nowMin)

/-- Oracle used by the C9 witness: `cos = 1`, `sin = 0`, `haversine = 0`,
`bearing = 0`. -/
def witnessGeo : GeoFns :=
  { sinDeg := fun _ => 0, cosDeg := fun _ => 1,
    haversineM := fun _ _ _ _ => 0, bearingDeg := fun _ _ _ _ => 0 }

/-! ## Audio multi-fanout buffer (`internal/audio/multireader.go`)

The circular byte buffer with one writer and many named readers.  Bytes are
`ℕ` values; the reader map is an association list (like the change
detector's).  The model covers the sequential data path: `Write` is the
byte-copy loop (the condition-variable signalling is inter-thread
scheduling), and `ReadAvailable` is `multiReaderClient.Read`'s non-blocking
path — when no data is available (`readIndex = writeIndex`) the Go code
blocks or times out and the model returns no bytes.  The Go chunked copy
reads consecutive positions `(readIndex + j) % bufferSize`. -/

/-- Per-reader state (`readerState` in the source; the condition variable is
scheduling machinery and carries no data). -/
structure ReaderState where
  readIndex : ℕ
  closed : Bool
  deriving DecidableEq, Repr

/-- The `MultiReader` fanout buffer state. -/
structure MultiReader where
  buffer : List ℕ
  bufferSize : ℕ
  writeIndex : ℕ
  readers : List (String × ReaderState)
  closed : Bool
  deriving DecidableEq, Repr

/-- `NewMultiReader`: 64 KiB circular buffer, write index 0, no readers. -/
def NewMultiReader : MultiReader :=
  { buffer := List.replicate (1024 * 64) 0, bufferSize := 1024 * 64,
    writeIndex := 0, readers := [], closed := false }

/-- `CreateReader`: reuse an existing open reader under the same id
unchanged; otherwise (fresh id, or an existing closed one, which is removed)
register a reader starting at the current write position. -/
def CreateReader (mr : MultiReader) (id : String) : MultiReader :=
  match mapLookup mr.readers id with
  | some reader =>
    if !reader.closed then mr
    else
      let fresh : ReaderState := { readIndex := mr.writeIndex, closed := false }
      { mr with readers := mapInsert (mapRemove mr.readers id) id fresh }
  | none =>
    let fresh : ReaderState := { readIndex := mr.writeIndex, closed := false }
    { mr with readers := mapInsert mr.readers id fresh }

/-- The byte-copy loop of `Write`: store each byte at the write index and
advance it modulo the buffer size. -/
def writeBytes (size : ℕ) (bw : List ℕ × ℕ) (p : List ℕ) : List ℕ × ℕ :=
  p.foldl (fun bw b => (bw.1.set bw.2 b, (bw.2 + 1) % size)) bw

/-- `Write`: returns the new state, the byte count and an ok flag
(`io.ErrClosedPipe` on a closed buffer becomes `false`). -/
def Write (mr : MultiReader) (p : List ℕ) : MultiReader × ℕ × Bool :=
  if mr.closed then (mr, 0, false)
  else
    let bw := writeBytes mr.bufferSize (mr.buffer, mr.writeIndex) p
    ({ mr with buffer := bw.1, writeIndex := bw.2 }, p.length, true)

/-- The data path of `multiReaderClient.Read` into a destination of length
`lenP`: compute the available byte count between the reader's index and the
write index (wrapping), cap it by the destination length, copy that many
consecutive circular-buffer bytes and advance the reader. -/
def ReadAvailable (mr : MultiReader) (id : String) (lenP : ℕ) :
    List ℕ × MultiReader :=
  match mapLookup mr.readers id with
  | none => ([], mr)
  | some reader =>
    if reader.closed ∨ mr.closed then ([], mr)
    else
      let readIndex := reader.readIndex
      let writeIndex := mr.writeIndex
      let bufferSize := mr.bufferSize
      if readIndex = writeIndex then ([], mr)
      else
        let available :=
          if writeIndex > readIndex then writeIndex - readIndex
          else bufferSize - readIndex + writeIndex
        let available := if available > lenP then lenP else available
        let data := (List.range available).map fun j =>
          mr.buffer.getD ((readIndex + j) % bufferSize) 0
        let newReadIndex := (readIndex + available) % bufferSize
        let updated : ReaderState := { reader with readIndex := newReadIndex }
        (data, { mr with readers := mapInsert mr.readers id updated })

/-- A fanout state in which reader `"r"` already exists, open, at position 0,
while the write index has since advanced to 2. -/
def mrExisting : MultiReader :=
  { buffer := [0, 0, 0, 0], bufferSize := 4, writeIndex := 2,
    readers := [("r", { readIndex := 0, closed := false })], closed := false }

/-- The C6 witness's initial fanout state: 8-byte buffer, write index 3, no
readers. -/
def mrFresh : MultiReader :=
  { buffer := [0, 0, 0, 0, 0, 0, 0, 0], bufferSize := 8, writeIndex := 3,
    readers := [], closed := false }

/-! ## Transcription post-processor (`processNextBatch`,
`internal/transcription/models.go`)

The store is the `transcriptions` table as a list of rows.  The sqlite
storage layer is not among the provided sources; its two operations are
modelled from the spec (see their doc comments).  The template renderer and
the language-model call are abstracted as `Except` results; the prompt
assembly (context rows, sorting, JSON marshalling) only shapes the model
input and the clearance/WebSocket side effects do not touch the
transcription store, so the model keeps the store-relevant control flow of
`processNextBatch`. -/

structure TranscriptionRecord where
  id : Int
  frequencyID : String
  content : String
  contentProcessed : String
  speakerType : String
  callsign : String
  isProcessed : Bool
  createdAt : ℚ
  deriving DecidableEq, Repr

/-- One row of the batch JSON sent to and returned by the language model. -/
structure TranscriptionBatch where
  id : Int
  content : String
  contentProcessed : String
  speakerType : String
  callsign : String
  timestamp : ℚ
  deriving DecidableEq, Repr

def orderedInsert (r : TranscriptionRecord) :
    List TranscriptionRecord → List TranscriptionRecord
  | [] => [r]
  | x :: xs =>
    if r.createdAt ≤ x.createdAt then r :: x :: xs else x :: orderedInsert r xs

def sortByCreatedAt : List TranscriptionRecord → List TranscriptionRecord
  | [] => []
  | x :: xs => orderedInsert x (sortByCreatedAt xs)

/-- Modelled from the spec: `GetUnprocessedTranscriptions` of the sqlite
transcription storage (its code is not among the provided sources): "Fetch
up to `batchSize` transcription records with `is_processed=false`, oldest
first." -/
def GetUnprocessedTranscriptions (store : List TranscriptionRecord)
    (batchSize : ℕ) : List TranscriptionRecord :=
  (sortByCreatedAt (store.filter fun r => !r.isProcessed)).take batchSize

/-- Modelled from the spec: `UpdateProcessedTranscription` of the sqlite
transcription storage (its code is not among the provided sources): "update
the transcription row atomically with the three fields and mark processed"
— sets `content_processed`, `speaker_type`, `callsign` and
`is_processed=true` on the row with the given id. -/
def UpdateProcessedTranscription (store : List TranscriptionRecord) (id : Int)
    (contentProcessed speakerType callsign : String) :
    List TranscriptionRecord :=
  store.map fun r =>
    if r.id = id then
      { r with contentProcessed := contentProcessed,
               speakerType := speakerType, callsign := callsign,
               isProcessed := true }
    else r

/-- `processNextBatch`: one post-processing tick over the store.  Returns the
updated store and the error the tick reports, mirroring the source's
control flow: empty batch → no-op; template render failure → every batch row
gets `[TEMPLATE_RENDER_FAILED]`/`UNKNOWN`; language-model failure →
`[PROCESSING_FAILED]`/`UNKNOWN`; empty result list →
`[NO_RESULTS_FROM_API]`/`UNKNOWN`; otherwise each returned row updates its
record, skipping rows with empty processed content and context rows. -/
def processNextBatch (store : List TranscriptionRecord) (batchSize : ℕ)
    (contextRecords : List TranscriptionRecord)
    (renderTemplate : Except String String)
    (callModel : String → Except String (List TranscriptionBatch)) :
    List TranscriptionRecord × Option String :=
  let records := GetUnprocessedTranscriptions store batchSize
  if records.isEmpty then (store, none)
  else
    match renderTemplate with
    | .error e =>
      (records.foldl (fun s r =>
        UpdateProcessedTranscription s r.id "[TEMPLATE_RENDER_FAILED]" "UNKNOWN" "")
        store, some e)
    | .ok systemPrompt =>
      match callModel systemPrompt with
      | .error e =>
        (records.foldl (fun s r =>
          UpdateProcessedTranscription s r.id "[PROCESSING_FAILED]" "UNKNOWN" "")
          store, some e)
      | .ok results =>
        if results.isEmpty then
          (records.foldl (fun s r =>
            UpdateProcessedTranscription s r.id "[NO_RESULTS_FROM_API]" "UNKNOWN" "")
            store, none)
        else
          (results.foldl (fun s result =>
            if result.contentProcessed = "" then s
            else if contextRecords.any fun c => c.id = result.id then s
            else UpdateProcessedTranscription s result.id result.contentProcessed
              result.speakerType result.callsign) store, none)

/-- A row with id `i` carries the sentinel fields. -/
def SentinelAt (i : Int) (sent spk : String) (rec : TranscriptionRecord) : Prop :=
  rec.id = i → rec.contentProcessed = sent ∧ rec.speakerType = spk ∧
    rec.isProcessed = true

/-- The C1 witness's transcription table: one unprocessed row (id 1) and one
already-processed row (id 2). -/
def storeW : List TranscriptionRecord :=
  [{ id := 1, frequencyID := "twr", content := "cleared for takeoff",
     contentProcessed := "", speakerType := "", callsign := "",
     isProcessed := false, createdAt := 0 },
   { id := 2, frequencyID := "twr", content := "roger",
     contentProcessed := "Roger.", speakerType := "PILOT", callsign := "",
     isProcessed := true, createdAt := 1 }]

/-! ## Theorems -/

/-! ### Sensor validation and flying classification (C2, C3, C4, C10) -/

/-- C2: if the previous altitude exceeds `impossibleAltDropThresholdFt` and the
current altitude is 0, sensor validation returns the previous altitude as the
corrected altitude. -/
theorem validateSensorData_impossible_alt_drop
    (currentTAS currentGS currentAlt prevTAS prevGS prevAlt
      distanceToAirportNM airportRangeNM : ℚ) (config : FlightPhasesConfig)
    (halt : currentAlt = 0)
    (hprev : prevAlt > config.impossibleAltDropThresholdFt) :
    (ValidateSensorData currentTAS currentGS currentAlt prevTAS prevGS prevAlt
      distanceToAirportNM airportRangeNM config).2.2 = prevAlt := by
  unfold ValidateSensorData
  split_ifs <;> simp_all

/-- Witness for C2 at a concrete input. -/
theorem validateSensorData_impossible_alt_drop_witness :
    (ValidateSensorData 250 260 0 240 250 12000 30 8
      ⟨50, 700, 20000, 3, 300, 10000, 100, 5000⟩).2.2 = 12000 :=
  validateSensorData_impossible_alt_drop 250 260 0 240 250 12000 30 8
    ⟨50, 700, 20000, 3, 300, 10000, 100, 5000⟩ rfl (by norm_num)

/-- C3: if altitude, TAS and GS all simultaneously drop to 0 from flying
values (previous altitude above 1000 ft and previous TAS or GS above 50 kt),
sensor validation keeps all three previous values. -/
theorem validateSensorData_combined_drop
    (currentTAS currentGS currentAlt prevTAS prevGS prevAlt
      distanceToAirportNM airportRangeNM : ℚ) (config : FlightPhasesConfig)
    (halt : currentAlt = 0) (htas : currentTAS = 0) (hgs : currentGS = 0)
    (hpa : prevAlt > 1000) (hps : prevTAS > 50 ∨ prevGS > 50) :
    ValidateSensorData currentTAS currentGS currentAlt prevTAS prevGS prevAlt
      distanceToAirportNM airportRangeNM config = (prevTAS, prevGS, prevAlt) := by
  unfold ValidateSensorData
  split_ifs <;> simp_all

/-- Witness for C3 at a concrete input (the spec's sensor-dropout scenario:
previous `(alt, TAS, GS) = (11000, 300, 310)`, current all zero). -/
theorem validateSensorData_combined_drop_witness :
    ValidateSensorData 0 0 0 300 310 11000 30 8
      ⟨50, 700, 20000, 3, 300, 10000, 100, 5000⟩ = (300, 310, 11000) :=
  validateSensorData_combined_drop 0 0 0 300 310 11000 30 8
    ⟨50, 700, 20000, 3, 300, 10000, 100, 5000⟩ rfl rfl rfl (by norm_num)
    (Or.inl (by norm_num))

/-- C4: at altitude exactly `flyingMinAltFt` and effective speed (TAS, or GS
when TAS is 0) exactly `flyingMinTASKts`, `IsFlying` returns `true`: both
thresholds are inclusive lower bounds. -/
theorem isFlying_at_thresholds (tas gs : ℚ) (config : FlightPhasesConfig)
    (hspeed : (if tas = 0 then gs else tas) = config.flyingMinTASKts) :
    IsFlying tas gs config.flyingMinAltFt config = true := by
  unfold IsFlying
  split_ifs <;> simp_all

/-- Witness for C4 at a concrete input: TAS 0, GS exactly at the 50 kt
threshold, altitude exactly at the 700 ft threshold. -/
theorem isFlying_at_thresholds_witness :
    IsFlying 0 50 700 ⟨50, 700, 20000, 3, 300, 10000, 100, 5000⟩ = true :=
  isFlying_at_thresholds 0 50 ⟨50, 700, 20000, 3, 300, 10000, 100, 5000⟩ rfl

/-- C10: sensor validation never alters a nonzero current value: each returned
component is either the current input value, or — only when the current input
value is exactly 0 — the corresponding previous value. -/
theorem validateSensorData_frame
    (currentTAS currentGS currentAlt prevTAS prevGS prevAlt
      distanceToAirportNM airportRangeNM : ℚ) (config : FlightPhasesConfig) :
    ((ValidateSensorData currentTAS currentGS currentAlt prevTAS prevGS prevAlt
        distanceToAirportNM airportRangeNM config).1 = currentTAS ∨
      (currentTAS = 0 ∧
        (ValidateSensorData currentTAS currentGS currentAlt prevTAS prevGS prevAlt
          distanceToAirportNM airportRangeNM config).1 = prevTAS)) ∧
    ((ValidateSensorData currentTAS currentGS currentAlt prevTAS prevGS prevAlt
        distanceToAirportNM airportRangeNM config).2.1 = currentGS ∨
      (currentGS = 0 ∧
        (ValidateSensorData currentTAS currentGS currentAlt prevTAS prevGS prevAlt
          distanceToAirportNM airportRangeNM config).2.1 = prevGS)) ∧
    ((ValidateSensorData currentTAS currentGS currentAlt prevTAS prevGS prevAlt
        distanceToAirportNM airportRangeNM config).2.2 = currentAlt ∨
      (currentAlt = 0 ∧
        (ValidateSensorData currentTAS currentGS currentAlt prevTAS prevGS prevAlt
          distanceToAirportNM airportRangeNM config).2.2 = prevAlt)) := by
  unfold ValidateSensorData
  split_ifs <;> simp_all

/-! ### Association-list map lemmas -/

theorem mem_mapInsert {α : Type} {m : List (String × α)} {k : String} {v : α}
    {e : String × α} (he : e ∈ mapInsert m k v) : e.1 = k ∨ e ∈ m := by
  induction m with
  | nil => simp only [mapInsert] at he; simp_all
  | cons hd tl ih =>
    obtain ⟨k', v'⟩ := hd
    simp only [mapInsert] at he
    split at he
    · rcases List.mem_cons.mp he with h | h
      · exact Or.inl (by simp [h])
      · exact Or.inr (List.mem_cons_of_mem _ h)
    · rcases List.mem_cons.mp he with h | h
      · exact Or.inr (by simp [h])
      · rcases ih h with h' | h'
        · exact Or.inl h'
        · exact Or.inr (List.mem_cons_of_mem _ h')

theorem keysNodup_mapInsert {α : Type} {m : List (String × α)} (k : String)
    (v : α) (hm : KeysNodup m) : KeysNodup (mapInsert m k v) := by
  induction m with
  | nil => simp [mapInsert, KeysNodup]
  | cons hd tl ih =>
    obtain ⟨k', v'⟩ := hd
    rw [KeysNodup, List.pairwise_cons] at hm
    obtain ⟨hhd, htl⟩ := hm
    simp only [mapInsert]
    by_cases hkk : k' = k
    · simp only [if_pos hkk]
      rw [KeysNodup, List.pairwise_cons]
      exact ⟨fun b hb => hkk ▸ hhd b hb, htl⟩
    · simp only [if_neg hkk]
      rw [KeysNodup, List.pairwise_cons]
      refine ⟨fun b hb => ?_, ih htl⟩
      rcases mem_mapInsert hb with h | h
      · rw [h]; exact hkk
      · exact hhd b h

theorem mapLookup_eq_of_mem {α : Type} {m : List (String × α)} {k : String}
    {v : α} (hm : KeysNodup m) (hmem : (k, v) ∈ m) :
    mapLookup m k = some v := by
  induction m with
  | nil => simp at hmem
  | cons hd tl ih =>
    obtain ⟨k', v'⟩ := hd
    rw [KeysNodup, List.pairwise_cons] at hm
    obtain ⟨hhd, htl⟩ := hm
    rcases List.mem_cons.mp hmem with h | h
    · obtain ⟨h1, h2⟩ := Prod.mk.injEq .. ▸ h
      simp [mapLookup, h1.symm, h2]
    · have hne : k' ≠ k := by
        have := hhd (k, v) h
        simpa using this
      simp [mapLookup, hne, ih htl h]

theorem mapLookup_mapInsert_self {α : Type} (m : List (String × α))
    (k : String) (v : α) : mapLookup (mapInsert m k v) k = some v := by
  induction m with
  | nil => simp [mapInsert, mapLookup]
  | cons hd tl ih =>
    obtain ⟨k', v'⟩ := hd
    by_cases h : k' = k
    · simp [mapInsert, mapLookup, h]
    · simp [mapInsert, mapLookup, h, ih]

/-! ### Change detector (C5) -/

theorem hasAnyChanges_self (a : Aircraft) : hasAnyChanges a a = false := by
  unfold hasAnyChanges
  rcases a.adsb with _ | p <;> simp

theorem keysNodup_buildMap (xs : List Aircraft) : KeysNodup (buildMap xs) := by
  have h : ∀ (l : List Aircraft) (acc : List (String × Aircraft)),
      KeysNodup acc → KeysNodup (l.foldl (fun m a => mapInsert m a.hex a) acc) := by
    intro l
    induction l with
    | nil => intro acc hacc; simpa using hacc
    | cons hd tl ih =>
      intro acc hacc
      exact ih _ (keysNodup_mapInsert hd.hex hd hacc)
  exact h xs [] (by simp [KeysNodup])

theorem detectAddedUpdated_self_eq_nil {m : List (String × Aircraft)}
    (hm : KeysNodup m) {sub : List (String × Aircraft)}
    (hsub : ∀ e ∈ sub, e ∈ m) : detectAddedUpdated m sub = [] := by
  induction sub with
  | nil => rfl
  | cons kv rest ih =>
    have hkv : kv ∈ m := hsub kv (List.mem_cons_self kv rest)
    have hlook : mapLookup m kv.1 = some kv.2 :=
      mapLookup_eq_of_mem hm (by simpa using hkv)
    simp only [detectAddedUpdated, hlook, hasAnyChanges_self]
    simpa using ih fun e he => hsub e (List.mem_cons_of_mem _ he)

theorem detectRemoved_self_eq_nil {m : List (String × Aircraft)}
    (hm : KeysNodup m) {sub : List (String × Aircraft)}
    (hsub : ∀ e ∈ sub, e ∈ m) : detectRemoved m sub = [] := by
  induction sub with
  | nil => rfl
  | cons kv rest ih =>
    have hkv : kv ∈ m := hsub kv (List.mem_cons_self kv rest)
    have hlook : mapLookup m kv.1 = some kv.2 :=
      mapLookup_eq_of_mem hm (by simpa using hkv)
    simp only [detectRemoved, hlook]
    simpa using ih fun e he => hsub e (List.mem_cons_of_mem _ he)

/-- C5: after the change detector has processed an aircraft list once,
processing the same list again emits no events: the second `DetectChanges`
call returns an empty change list. -/
theorem detectChanges_same_list_twice (cd : ChangeDetector)
    (xs : List Aircraft) :
    (DetectChanges (DetectChanges cd xs).2 xs).1 = [] := by
  have hnd : KeysNodup (buildMap xs) := keysNodup_buildMap xs
  show detectAddedUpdated (buildMap xs) (buildMap xs) ++
    detectRemoved (buildMap xs) (buildMap xs) = []
  rw [detectAddedUpdated_self_eq_nil hnd fun e he => he,
    detectRemoved_self_eq_nil hnd fun e he => he]
  rfl

/-! ### Weather fetcher retry loop (C7) -/

theorem fetchWithRetryAux_all_fail {α : Type} (oracle : ℕ → Except String α)
    (errs : ℕ → String) (maxRetries : ℕ) :
    ∀ n a delays, maxRetries + 1 - a = n → 1 ≤ a → a ≤ maxRetries + 1 →
    (∀ i, a ≤ i → i ≤ maxRetries → oracle i = .error (errs i)) →
    fetchWithRetryAux oracle maxRetries a (some (errs (a - 1))) delays =
      (none, some (errs maxRetries),
        delays ++ (List.range' (a - 1) (maxRetries + 1 - a)).map fun i => 500 * 2 ^ i) := by
  intro n
  induction n with
  | zero =>
    intro a delays hfuel ha1 hale _horacle
    have ha : a = maxRetries + 1 := by omega
    rw [fetchWithRetryAux]
    rw [dif_neg (by omega)]
    simp [ha, hfuel]
  | succ n ih =>
    intro a delays hfuel ha1 _hale horacle
    have hle : a ≤ maxRetries := by omega
    rw [fetchWithRetryAux]
    rw [dif_pos hle]
    simp only [if_pos (by omega : a > 0)]
    rw [horacle a le_rfl hle]
    have hrec := ih (a + 1) (delays ++ [500 * 2 ^ (a - 1)]) (by omega) (by omega)
      (by omega) (fun i hi1 hi2 => horacle i (by omega) hi2)
    simp only [Nat.add_sub_cancel] at hrec
    change fetchWithRetryAux oracle maxRetries (a + 1) (some (errs a))
      (delays ++ [500 * 2 ^ (a - 1)]) =
      (none, some (errs maxRetries),
        delays ++ (List.range' (a - 1) (maxRetries + 1 - a)).map fun i => 500 * 2 ^ i)
    rw [hrec]
    have h2 : a - 1 + 1 = a := by omega
    have h1 : maxRetries + 1 - a = (maxRetries - a) + 1 := by omega
    have hrange : List.range' (a - 1) (maxRetries + 1 - a) =
        (a - 1) :: List.range' a (maxRetries - a) := by
      rw [h1, List.range'_succ, h2]
    rw [hrange]
    simp

theorem fetchWithRetryAux_delay_shape {α : Type} (oracle : ℕ → Except String α)
    (maxRetries : ℕ) :
    ∀ n a lastErr delays, maxRetries + 1 - a = n → 1 ≤ a →
    ∃ k, k ≤ maxRetries + 1 - a ∧
      (fetchWithRetryAux oracle maxRetries a lastErr delays).2.2 =
        delays ++ (List.range' (a - 1) k).map fun i => 500 * 2 ^ i := by
  intro n
  induction n with
  | zero =>
    intro a lastErr delays hfuel ha1
    refine ⟨0, by omega, ?_⟩
    rw [fetchWithRetryAux, dif_neg (by omega)]
    simp
  | succ n ih =>
    intro a lastErr delays hfuel ha1
    have hle : a ≤ maxRetries := by omega
    rw [fetchWithRetryAux, dif_pos hle]
    simp only [if_pos (by omega : a > 0)]
    cases horacle : oracle a with
    | ok data =>
      refine ⟨1, by omega, ?_⟩
      simp [List.range'_succ]
    | error e =>
      obtain ⟨k, hk, heq⟩ := ih (a + 1) (some e) (delays ++ [500 * 2 ^ (a - 1)])
        (by omega) (by omega)
      have hkb : k + 1 ≤ maxRetries + 1 - a := by omega
      refine ⟨k + 1, hkb, ?_⟩
      simp only [Nat.add_sub_cancel] at heq
      rw [heq]
      have h2 : a - 1 + 1 = a := by omega
      have hrange : List.range' (a - 1) (k + 1) = (a - 1) :: List.range' a k := by
        rw [List.range'_succ, h2]
      rw [hrange]
      simp

/-- C7: (i) the backoff delays slept by a weather fetch are exactly
`500 ms · 2^(attempt−1)` before retry attempt number `attempt`, i.e. the
delay list is a prefix `[500·2^0, …, 500·2^(k−1)]` with `k ≤ maxRetries`
retries (at most `maxRetries + 1` total attempts); (ii) when every attempt
fails, the fetch returns no data together with the error of the last
attempt, having slept all `maxRetries` backoff delays. -/
theorem fetchWithRetry_backoff_spec {α : Type} (oracle : ℕ → Except String α)
    (maxRetries : ℕ) (errs : ℕ → String) :
    (∃ k, k ≤ maxRetries ∧
      (fetchWithRetry oracle maxRetries).2.2 =
        (List.range k).map fun i => 500 * 2 ^ i) ∧
    ((∀ i, i ≤ maxRetries → oracle i = .error (errs i)) →
      fetchWithRetry oracle maxRetries =
        (none, some (errs maxRetries),
          (List.range maxRetries).map fun i => 500 * 2 ^ i)) := by
  constructor
  · rw [fetchWithRetry, fetchWithRetryAux, dif_pos (Nat.zero_le _)]
    simp only [gt_iff_lt, lt_irrefl, if_false]
    cases horacle : oracle 0 with
    | ok data => exact ⟨0, Nat.zero_le _, by simp⟩
    | error e =>
      obtain ⟨k, hk, heq⟩ := fetchWithRetryAux_delay_shape oracle maxRetries
        (maxRetries + 1 - 1) 1 (some e) [] (by omega) le_rfl
      refine ⟨k, by omega, ?_⟩
      rw [heq]
      simp [List.range_eq_range']
  · intro hfail
    rw [fetchWithRetry, fetchWithRetryAux, dif_pos (Nat.zero_le _)]
    simp only [gt_iff_lt, lt_irrefl, if_false]
    rw [hfail 0 (Nat.zero_le _)]
    have h := fetchWithRetryAux_all_fail oracle errs maxRetries
      (maxRetries + 1 - 1) 1 [] (by omega) le_rfl (by omega)
      (fun i hi1 hi2 => hfail i hi2)
    simp only [Nat.sub_self, Nat.add_sub_cancel] at h ⊢
    rw [show (errs 0) = errs (1 - 1) by norm_num] at h
    rw [h]
    simp [List.range_eq_range']

/-- Witness for C7: three attempts (`maxRetries = 2`) all failing, backoffs
500 ms then 1000 ms, final result carries the last error and no data. -/
theorem fetchWithRetry_backoff_spec_witness :
    fetchWithRetry (fun _ => (Except.error "boom" : Except String Unit)) 2 =
      (none, some "boom", [500, 1000]) := by
  have h := (fetchWithRetry_backoff_spec
    (fun _ => (Except.error "boom" : Except String Unit)) 2 (fun _ => "boom")).2
    (fun i _ => rfl)
  simpa using h

/-! ### Streaming WAV header (C8) -/

/-- C8 counterexample: at `sampleRate = 24000`, `channels = 1` the data
sub-chunk size field (bytes 40–43, little-endian) decodes to
`0xFFFFFFFF − 36 = 4294967259`, which is not the maximum 32-bit value. -/
theorem createWAVHeader_dataSize_not_max :
    leDecode (wavField (createWAVHeader 24000 1) 40 4) = 4294967259 ∧
    (4294967259 : ℕ) ≠ 0xFFFFFFFF := by
  constructor
  · have h : wavField (createWAVHeader 24000 1) 40 4 =
        le32 (0xFFFFFFFF - 36) := rfl
    rw [h]
    norm_num [le32, leDecode]
  · norm_num

/-- C8 (amended): the synthesized streaming header is 44 bytes of valid PCM
WAV framing; since the stream size is unknown, the sizes are pinned at the
32-bit maximum: the RIFF chunk-size field is `0xFFFFFFFF` and the data
sub-chunk size field is `0xFFFFFFFF − 36` (max minus the 36 remaining header
bytes). -/
theorem createWAVHeader_framing (sampleRate channels : ℕ) :
    (createWAVHeader sampleRate channels).length = 44 ∧
    wavField (createWAVHeader sampleRate channels) 0 4 = [82, 73, 70, 70] ∧
    leDecode (wavField (createWAVHeader sampleRate channels) 4 4) = 0xFFFFFFFF ∧
    wavField (createWAVHeader sampleRate channels) 8 4 = [87, 65, 86, 69] ∧
    wavField (createWAVHeader sampleRate channels) 12 4 = [102, 109, 116, 32] ∧
    leDecode (wavField (createWAVHeader sampleRate channels) 16 4) = 16 ∧
    leDecode (wavField (createWAVHeader sampleRate channels) 20 2) = 1 ∧
    leDecode (wavField (createWAVHeader sampleRate channels) 34 2) = 16 ∧
    wavField (createWAVHeader sampleRate channels) 36 4 = [100, 97, 116, 97] ∧
    leDecode (wavField (createWAVHeader sampleRate channels) 40 4) =
      0xFFFFFFFF - 36 := by
  refine ⟨rfl, rfl, ?_, rfl, rfl, ?_, ?_, ?_, rfl, ?_⟩
  · have h : wavField (createWAVHeader sampleRate channels) 4 4 =
        le32 ((36 + (0xFFFFFFFF - 36)) % 2 ^ 32) := rfl
    rw [h]
    norm_num [le32, leDecode]
  · have h : wavField (createWAVHeader sampleRate channels) 16 4 =
        le32 16 := rfl
    rw [h]
    norm_num [le32, leDecode]
  · have h : wavField (createWAVHeader sampleRate channels) 20 2 =
        le16 1 := rfl
    rw [h]
    norm_num [le16, leDecode]
  · have h : wavField (createWAVHeader sampleRate channels) 34 2 =
        le16 16 := rfl
    rw [h]
    norm_num [le16, leDecode]
  · have h : wavField (createWAVHeader sampleRate channels) 40 4 =
        le32 (0xFFFFFFFF - 36) := rfl
    rw [h]
    norm_num [le32, leDecode]

/-! ### Trajectory prediction (C9) -/

theorem scale_bounds (spd d : ℚ) (h0 : 0 ≤ d) (hlt : d < 10) (hspd : 0 ≤ spd) :
    3 / 4 * spd ≤ spd * (1 - 1 / 4 * ((10 - d) / 10)) ∧
    spd * (1 - 1 / 4 * ((10 - d) / 10)) ≤ spd ∧
    spd ≤ spd * (1 + 1 / 4 * ((10 - d) / 10)) ∧
    spd * (1 + 1 / 4 * ((10 - d) / 10)) ≤ 5 / 4 * spd := by
  have hf0 : 0 ≤ (10 - d) / 10 := by linarith
  have hf1 : (10 - d) / 10 ≤ 1 := by linarith
  refine ⟨?_, ?_, ?_, ?_⟩ <;> nlinarith [mul_nonneg hspd hf0,
    mul_nonneg hspd (sub_nonneg.mpr hf1)]

/-- C9: `PredictFuturePositions` returns exactly 5 samples; sample `i` is the
constant-heading dead-reckoning position `minutesAhead = i+1` minutes ahead
with timestamp `now + (i+1)` minutes; and whenever a predicted sample lies
within `SPEED_ADJUST_RANGE_NM = 10` NM of the station, its reported speed is
the linear scaling `spd·(1 ∓ 0.25·(10−d)/10)` — decreased (by at most 25 %)
when the aircraft is approaching the station (heading/bearing difference
under 90°), increased (by at most 25 %) when departing — while samples
outside the range keep the unmodified speed. -/
theorem predictFuturePositions_spec (g : GeoFns)
    (lat lon altBaro hdg magHdg spd vs sLat sLon now : ℚ)
    (hhav : ∀ a b c d, 0 ≤ g.haversineM a b c d) (hspd : 0 ≤ spd) :
    (PredictFuturePositions g lat lon altBaro hdg magHdg spd vs sLat sLon now).length = 5 ∧
    ∀ i, (hi : i < (PredictFuturePositions g lat lon altBaro hdg magHdg spd vs
        sLat sLon now).length) →
      (PredictFuturePositions g lat lon altBaro hdg magHdg spd vs sLat sLon
          now).get ⟨i, hi⟩ =
        predictSample g lat lon altBaro hdg magHdg spd vs sLat sLon now i ∧
      (predictSample g lat lon altBaro hdg magHdg spd vs sLat sLon now i).timestampMin =
        now + ((i : ℚ) + 1) ∧
      (predictSample g lat lon altBaro hdg magHdg spd vs sLat sLon now i).trueHeading = hdg ∧
      (predictSample g lat lon altBaro hdg magHdg spd vs sLat sLon now i).magHeading = magHdg ∧
      (predictSample g lat lon altBaro hdg magHdg spd vs sLat sLon now i).lat =
        lat + spd * (1852 / 1000) / 60 * ((i : ℚ) + 1) * g.cosDeg hdg / 111 ∧
      (predictSample g lat lon altBaro hdg magHdg spd vs sLat sLon now i).lon =
        lon + spd * (1852 / 1000) / 60 * ((i : ℚ) + 1) * g.sinDeg hdg /
          (111 * g.cosDeg lat) ∧
      (distToStationNM g
          (predictSample g lat lon altBaro hdg magHdg spd vs sLat sLon now i).lat
          (predictSample g lat lon altBaro hdg magHdg spd vs sLat sLon now i).lon
          sLat sLon < 10 →
        (approachingStation g lat lon hdg sLat sLon = true →
          (predictSample g lat lon altBaro hdg magHdg spd vs sLat sLon now i).speedTrue =
            spd * (1 - 1 / 4 * ((10 - distToStationNM g
              (predictSample g lat lon altBaro hdg magHdg spd vs sLat sLon now i).lat
              (predictSample g lat lon altBaro hdg magHdg spd vs sLat sLon now i).lon
              sLat sLon) / 10)) ∧
          3 / 4 * spd ≤
            (predictSample g lat lon altBaro hdg magHdg spd vs sLat sLon now i).speedTrue ∧
          (predictSample g lat lon altBaro hdg magHdg spd vs sLat sLon now i).speedTrue ≤ spd) ∧
        (approachingStation g lat lon hdg sLat sLon = false →
          (predictSample g lat lon altBaro hdg magHdg spd vs sLat sLon now i).speedTrue =
            spd * (1 + 1 / 4 * ((10 - distToStationNM g
              (predictSample g lat lon altBaro hdg magHdg spd vs sLat sLon now i).lat
              (predictSample g lat lon altBaro hdg magHdg spd vs sLat sLon now i).lon
              sLat sLon) / 10)) ∧
          spd ≤ (predictSample g lat lon altBaro hdg magHdg spd vs sLat sLon now i).speedTrue ∧
          (predictSample g lat lon altBaro hdg magHdg spd vs sLat sLon now i).speedTrue ≤
            5 / 4 * spd)) ∧
      (¬ distToStationNM g
          (predictSample g lat lon altBaro hdg magHdg spd vs sLat sLon now i).lat
          (predictSample g lat lon altBaro hdg magHdg spd vs sLat sLon now i).lon
          sLat sLon < 10 →
        (predictSample g lat lon altBaro hdg magHdg spd vs sLat sLon now i).speedTrue = spd) := by
  constructor
  · simp [PredictFuturePositions]
  · intro i hi
    have hget : (PredictFuturePositions g lat lon altBaro hdg magHdg spd vs
        sLat sLon now).get ⟨i, hi⟩ =
        predictSample g lat lon altBaro hdg magHdg spd vs sLat sLon now i := by
      simp [PredictFuturePositions] at hi ⊢
    have hd0 : 0 ≤ distToStationNM g
        (predictSample g lat lon altBaro hdg magHdg spd vs sLat sLon now i).lat
        (predictSample g lat lon altBaro hdg magHdg spd vs sLat sLon now i).lon
        sLat sLon :=
      div_nonneg (hhav _ _ _ _) (by norm_num)
    refine ⟨hget, rfl, rfl, rfl, rfl, rfl, ?_, ?_⟩
    · intro hlt
      constructor
      · intro happ
        simp only [predictSample] at hd0 hlt ⊢
        rw [if_pos hlt, if_pos happ]
        exact ⟨rfl, (scale_bounds spd _ hd0 hlt hspd).1,
          (scale_bounds spd _ hd0 hlt hspd).2.1⟩
      · intro hnapp
        have hnapp2 : ¬ (approachingStation g lat lon hdg sLat sLon = true) := by
          simp [hnapp]
        simp only [predictSample] at hd0 hlt ⊢
        rw [if_pos hlt, if_neg hnapp2]
        exact ⟨rfl, (scale_bounds spd _ hd0 hlt hspd).2.2.1,
          (scale_bounds spd _ hd0 hlt hspd).2.2.2⟩
    · intro hge
      simp only [predictSample] at hge ⊢
      rw [if_neg hge]

/-- Witness for C9 at a concrete input (heading 0, speed 100 kt, level
flight, station at the aircraft position). -/
theorem predictFuturePositions_spec_witness :
    (PredictFuturePositions witnessGeo 43 (-79) 1000 0 0 100 0 43 (-79) 0).length = 5 ∧
    ∀ i, (hi : i < (PredictFuturePositions witnessGeo 43 (-79) 1000 0 0 100 0
        43 (-79) 0).length) →
      (PredictFuturePositions witnessGeo 43 (-79) 1000 0 0 100 0 43 (-79)
          0).get ⟨i, hi⟩ =
        predictSample witnessGeo 43 (-79) 1000 0 0 100 0 43 (-79) 0 i ∧
      (predictSample witnessGeo 43 (-79) 1000 0 0 100 0 43 (-79) 0 i).timestampMin =
        0 + ((i : ℚ) + 1) ∧
      (predictSample witnessGeo 43 (-79) 1000 0 0 100 0 43 (-79) 0 i).trueHeading = 0 ∧
      (predictSample witnessGeo 43 (-79) 1000 0 0 100 0 43 (-79) 0 i).magHeading = 0 ∧
      (predictSample witnessGeo 43 (-79) 1000 0 0 100 0 43 (-79) 0 i).lat =
        43 + 100 * (1852 / 1000) / 60 * ((i : ℚ) + 1) * witnessGeo.cosDeg 0 / 111 ∧
      (predictSample witnessGeo 43 (-79) 1000 0 0 100 0 43 (-79) 0 i).lon =
        -79 + 100 * (1852 / 1000) / 60 * ((i : ℚ) + 1) * witnessGeo.sinDeg 0 /
          (111 * witnessGeo.cosDeg 43) ∧
      (distToStationNM witnessGeo
          (predictSample witnessGeo 43 (-79) 1000 0 0 100 0 43 (-79) 0 i).lat
          (predictSample witnessGeo 43 (-79) 1000 0 0 100 0 43 (-79) 0 i).lon
          43 (-79) < 10 →
        (approachingStation witnessGeo 43 (-79) 0 43 (-79) = true →
          (predictSample witnessGeo 43 (-79) 1000 0 0 100 0 43 (-79) 0 i).speedTrue =
            100 * (1 - 1 / 4 * ((10 - distToStationNM witnessGeo
              (predictSample witnessGeo 43 (-79) 1000 0 0 100 0 43 (-79) 0 i).lat
              (predictSample witnessGeo 43 (-79) 1000 0 0 100 0 43 (-79) 0 i).lon
              43 (-79)) / 10)) ∧
          3 / 4 * 100 ≤
            (predictSample witnessGeo 43 (-79) 1000 0 0 100 0 43 (-79) 0 i).speedTrue ∧
          (predictSample witnessGeo 43 (-79) 1000 0 0 100 0 43 (-79) 0 i).speedTrue ≤ 100) ∧
        (approachingStation witnessGeo 43 (-79) 0 43 (-79) = false →
          (predictSample witnessGeo 43 (-79) 1000 0 0 100 0 43 (-79) 0 i).speedTrue =
            100 * (1 + 1 / 4 * ((10 - distToStationNM witnessGeo
              (predictSample witnessGeo 43 (-79) 1000 0 0 100 0 43 (-79) 0 i).lat
              (predictSample witnessGeo 43 (-79) 1000 0 0 100 0 43 (-79) 0 i).lon
              43 (-79)) / 10)) ∧
          100 ≤ (predictSample witnessGeo 43 (-79) 1000 0 0 100 0 43 (-79) 0 i).speedTrue ∧
          (predictSample witnessGeo 43 (-79) 1000 0 0 100 0 43 (-79) 0 i).speedTrue ≤
            5 / 4 * 100)) ∧
      (¬ distToStationNM witnessGeo
          (predictSample witnessGeo 43 (-79) 1000 0 0 100 0 43 (-79) 0 i).lat
          (predictSample witnessGeo 43 (-79) 1000 0 0 100 0 43 (-79) 0 i).lon
          43 (-79) < 10 →
        (predictSample witnessGeo 43 (-79) 1000 0 0 100 0 43 (-79) 0 i).speedTrue = 100) :=
  predictFuturePositions_spec witnessGeo 43 (-79) 1000 0 0 100 0 43 (-79) 0
    (fun _ _ _ _ => le_refl 0) (by norm_num)

/-! ### Audio multi-fanout buffer (C6) -/

theorem writeBytes_untouched (size : ℕ) :
    ∀ (p : List ℕ) (buf : List ℕ) (w q : ℕ), w < size → q < size →
      (∀ t, t < p.length → (w + t) % size ≠ q) →
      (writeBytes size (buf, w) p).1.getD q 0 = buf.getD q 0 := by
  intro p
  induction p with
  | nil => intro buf w q _ _ _; rfl
  | cons b rest ih =>
    intro buf w q hw hq hnt
    show (writeBytes size (buf.set w b, (w + 1) % size) rest).1.getD q 0 =
      buf.getD q 0
    have hsize : 0 < size := by omega
    rw [ih (buf.set w b) ((w + 1) % size) q (Nat.mod_lt _ (by omega)) hq ?_]
    · have hwq : w ≠ q := by
        have := hnt 0 (by simp)
        simpa [Nat.mod_eq_of_lt hw] using this
      rw [List.getD_eq_getElem?_getD, List.getElem?_set_ne hwq,
        ← List.getD_eq_getElem?_getD]
    · intro t ht
      have : ((w + 1) % size + t) % size = (w + (1 + t)) % size := by
        rw [Nat.mod_add_mod]
        ring_nf
      rw [this]
      exact hnt (1 + t) (by simp; omega)

theorem writeBytes_spec (size : ℕ) :
    ∀ (p : List ℕ) (buf : List ℕ) (w : ℕ), buf.length = size → w < size →
      p.length ≤ size →
      (writeBytes size (buf, w) p).1.length = size ∧
      (writeBytes size (buf, w) p).2 = (w + p.length) % size ∧
      ∀ j, j < p.length →
        (writeBytes size (buf, w) p).1.getD ((w + j) % size) 0 = p.getD j 0 := by
  intro p
  induction p with
  | nil =>
    intro buf w hbuf hw _
    refine ⟨hbuf, ?_, by simp⟩
    show w = (w + 0) % size
    simp [Nat.mod_eq_of_lt hw]
  | cons b rest ih =>
    intro buf w hbuf hw hlen
    have hsize : 0 < size := by omega
    have hw1 : (w + 1) % size < size := Nat.mod_lt _ hsize
    have hbuf1 : (buf.set w b).length = size := by simp [hbuf]
    have hrest : rest.length ≤ size := by simp at hlen; omega
    obtain ⟨ihlen, ihw, ihget⟩ := ih (buf.set w b) ((w + 1) % size) hbuf1 hw1 hrest
    refine ⟨ihlen, ?_, ?_⟩
    · show (writeBytes size (buf.set w b, (w + 1) % size) rest).2 = _
      rw [ihw, Nat.mod_add_mod]
      congr 1
      simp
      ring
    · intro j hj
      cases j with
      | zero =>
        show (writeBytes size (buf.set w b, (w + 1) % size) rest).1.getD
          ((w + 0) % size) 0 = b
        have hz : (w + 0) % size = w := by
          rw [Nat.add_zero]
          exact Nat.mod_eq_of_lt hw
        rw [hz]
        rw [writeBytes_untouched size rest (buf.set w b) ((w + 1) % size) w hw1 hw ?_]
        · rw [List.getD_eq_getElem?_getD, List.getElem?_set_self (by omega),
            Option.getD_some]
        · intro t ht heq
          rw [Nat.mod_add_mod] at heq
          have hts : 0 < 1 + t ∧ 1 + t < size := by simp at hlen; omega
          rw [show w + 1 + t = w + (1 + t) by ring] at heq
          by_cases hws : w + (1 + t) < size
          · rw [Nat.mod_eq_of_lt hws] at heq
            omega
          · have h2 : w + (1 + t) - size < size := by omega
            rw [Nat.mod_eq_sub_mod (by omega), Nat.mod_eq_of_lt h2] at heq
            omega
      | succ j =>
        show (writeBytes size (buf.set w b, (w + 1) % size) rest).1.getD
          ((w + (j + 1)) % size) 0 = rest.getD j 0
        have harith : (w + (j + 1)) % size = ((w + 1) % size + j) % size := by
          rw [Nat.mod_add_mod]
          congr 1
          ring
        rw [harith]
        exact ihget j (by simpa using hj)

theorem createReader_state (mr : MultiReader) (id : String)
    (hnotopen : ∀ r, mapLookup mr.readers id = some r → r.closed = true) :
    (CreateReader mr id).buffer = mr.buffer ∧
    (CreateReader mr id).bufferSize = mr.bufferSize ∧
    (CreateReader mr id).writeIndex = mr.writeIndex ∧
    (CreateReader mr id).closed = mr.closed ∧
    mapLookup (CreateReader mr id).readers id =
      some { readIndex := mr.writeIndex, closed := false } := by
  unfold CreateReader
  cases hlk : mapLookup mr.readers id with
  | none => simp [mapLookup_mapInsert_self]
  | some r =>
    have hc : r.closed = true := hnotopen r hlk
    simp [hc, mapLookup_mapInsert_self]

theorem readAvailable_at_write_pos (mr : MultiReader) (id : String) (k : ℕ)
    (hlook : mapLookup mr.readers id =
      some { readIndex := mr.writeIndex, closed := false }) :
    (ReadAvailable mr id k).1 = [] := by
  unfold ReadAvailable
  rw [hlook]
  by_cases hc : mr.closed = true
  · simp [hc]
  · simp [hc]

theorem readAvailable_after_write (mr : MultiReader) (id : String) (p : List ℕ)
    (hlook : mapLookup mr.readers id =
      some { readIndex := mr.writeIndex, closed := false })
    (hbuf : mr.buffer.length = mr.bufferSize)
    (hw : mr.writeIndex < mr.bufferSize)
    (hp : p.length < mr.bufferSize)
    (hop : mr.closed = false) :
    (ReadAvailable (Write mr p).1 id p.length).1 = p := by
  have hsize : 0 < mr.bufferSize := by omega
  obtain ⟨hlen2, hw2, hget2⟩ :=
    writeBytes_spec mr.bufferSize p mr.buffer mr.writeIndex hbuf hw (le_of_lt hp)
  have hwr : (Write mr p).1 =
      { mr with buffer := (writeBytes mr.bufferSize (mr.buffer, mr.writeIndex) p).1,
                writeIndex := (writeBytes mr.bufferSize (mr.buffer, mr.writeIndex) p).2 } := by
    unfold Write
    rw [if_neg (by simp [hop])]
  rw [hwr]
  unfold ReadAvailable
  simp only [hlook]
  rw [if_neg (by simp [hop])]
  rcases Nat.eq_zero_or_pos p.length with hp0 | hp0
  · have hpnil : p = [] := List.length_eq_zero.mp hp0
    rw [if_pos]
    · simp [hpnil]
    · rw [hw2, hp0, Nat.add_zero, Nat.mod_eq_of_lt hw]
  · rw [if_neg ?hne]
    case hne =>
      rw [hw2]
      intro heq
      by_cases hwrap : mr.writeIndex + p.length < mr.bufferSize
      · rw [Nat.mod_eq_of_lt hwrap] at heq
        omega
      · rw [Nat.mod_eq_sub_mod (by omega),
          Nat.mod_eq_of_lt (by omega)] at heq
        omega
    have havail :
        (if (writeBytes mr.bufferSize (mr.buffer, mr.writeIndex) p).2 > mr.writeIndex then
          (writeBytes mr.bufferSize (mr.buffer, mr.writeIndex) p).2 - mr.writeIndex
        else mr.bufferSize - mr.writeIndex +
          (writeBytes mr.bufferSize (mr.buffer, mr.writeIndex) p).2) = p.length := by
      rw [hw2]
      by_cases hwrap : mr.writeIndex + p.length < mr.bufferSize
      · rw [Nat.mod_eq_of_lt hwrap, if_pos (by omega)]
        omega
      · rw [Nat.mod_eq_sub_mod (by omega), Nat.mod_eq_of_lt (by omega)]
        rw [if_neg (by omega)]
        omega
    rw [havail]
    rw [if_neg (by omega)]
    apply List.ext_get
    · simp
    · intro j h1 h2
      simp only [List.get_eq_getElem, List.getElem_map, List.getElem_range]
      have hj : j < p.length := by simpa using h1
      have h3 := hget2 j hj
      rw [List.getD_eq_getElem p 0 hj] at h3
      exact h3

/-- C6 counterexample: calling `CreateReader` with an id that already has an
open reader returns that reader's existing state: its read position stays 0
although the buffer's write index is 2. -/
theorem createReader_existing_keeps_position :
    (mapLookup (CreateReader mrExisting "r").readers "r").map
      ReaderState.readIndex = some 0 ∧
    mrExisting.writeIndex = 2 ∧ (0 : ℕ) ≠ 2 := by
  refine ⟨?_, rfl, by norm_num⟩
  rfl

/-- C6 (amended): for every fanout state and every id with no *open* reader
under it (a fresh id, or one whose previous reader is closed):
`CreateReader` registers the reader at the buffer's current write index; the
new reader has no bytes to read at creation (it never sees earlier buffer
contents); and once the writer appends `p` (shorter than the buffer), the
reader's read returns exactly `p` — precisely the bytes written after its
creation. -/
theorem createReader_starts_at_write_index (mr : MultiReader) (id : String)
    (p : List ℕ)
    (hnotopen : ∀ r, mapLookup mr.readers id = some r → r.closed = true)
    (hbuf : mr.buffer.length = mr.bufferSize)
    (hw : mr.writeIndex < mr.bufferSize)
    (hp : p.length < mr.bufferSize)
    (hop : mr.closed = false) :
    (mapLookup (CreateReader mr id).readers id).map ReaderState.readIndex =
      some mr.writeIndex ∧
    (∀ k, (ReadAvailable (CreateReader mr id) id k).1 = []) ∧
    (ReadAvailable (Write (CreateReader mr id) p).1 id p.length).1 = p := by
  obtain ⟨hb, hs, hw', hc, hlk⟩ := createReader_state mr id hnotopen
  refine ⟨by rw [hlk]; rfl, ?_, ?_⟩
  · intro k
    apply readAvailable_at_write_pos
    rw [hlk, hw']
  · apply readAvailable_after_write
    · rw [hlk, hw']
    · rw [hb, hs]
      exact hbuf
    · rw [hw', hs]
      exact hw
    · rw [hs]
      exact hp
    · rw [hc]
      exact hop

/-- Witness for C6 (amended) at a concrete input: a reader created on a fresh
id starts at write index 3, reads nothing at creation, and after the writer
appends `[7, 8, 9]` reads back exactly `[7, 8, 9]`. -/
theorem createReader_starts_at_write_index_witness :
    (mapLookup (CreateReader mrFresh "web-1").readers "web-1").map
      ReaderState.readIndex = some 3 ∧
    (ReadAvailable (CreateReader mrFresh "web-1") "web-1" 5).1 = [] ∧
    (ReadAvailable (Write (CreateReader mrFresh "web-1") [7, 8, 9]).1 "web-1"
      3).1 = [7, 8, 9] := by
  have h := createReader_starts_at_write_index mrFresh "web-1" [7, 8, 9]
    (fun r hr => by simp [mrFresh, mapLookup] at hr) rfl (by norm_num [mrFresh])
    (by norm_num [mrFresh]) rfl
  exact ⟨h.1, h.2.1 5, h.2.2⟩

/-! ### Transcription post-processor (C1) -/

theorem sentinelAt_update (i : Int) (sent spk cs : String) (j : Int)
    (store : List TranscriptionRecord)
    (h : ∀ x ∈ store, SentinelAt i sent spk x) :
    ∀ x ∈ UpdateProcessedTranscription store j sent spk cs,
      SentinelAt i sent spk x := by
  intro x hx
  unfold UpdateProcessedTranscription at hx
  obtain ⟨y, hy, hxy⟩ := List.mem_map.mp hx
  by_cases hij : y.id = j
  · rw [if_pos hij] at hxy
    intro _
    rw [← hxy]
    exact ⟨rfl, rfl, rfl⟩
  · rw [if_neg hij] at hxy
    rw [← hxy]
    exact h y hy

theorem sentinelAt_foldUpdate (i : Int) (sent spk cs : String) :
    ∀ (recs : List TranscriptionRecord) (store : List TranscriptionRecord),
      (∀ x ∈ store, SentinelAt i sent spk x) →
      ∀ x ∈ recs.foldl (fun s r =>
          UpdateProcessedTranscription s r.id sent spk cs) store,
        SentinelAt i sent spk x := by
  intro recs
  induction recs with
  | nil => intro store h; simpa using h
  | cons r rest ih =>
    intro store h
    exact ih _ (sentinelAt_update i sent spk cs r.id store h)

theorem sentinelAt_update_self (i : Int) (sent spk cs : String)
    (store : List TranscriptionRecord) :
    ∀ x ∈ UpdateProcessedTranscription store i sent spk cs,
      SentinelAt i sent spk x := by
  intro x hx
  unfold UpdateProcessedTranscription at hx
  obtain ⟨y, hy, hxy⟩ := List.mem_map.mp hx
  by_cases hij : y.id = i
  · rw [if_pos hij] at hxy
    intro _
    rw [← hxy]
    exact ⟨rfl, rfl, rfl⟩
  · rw [if_neg hij] at hxy
    intro hxi
    rw [← hxy] at hxi
    exact absurd hxi hij

theorem foldUpdate_sentinel (sent spk cs : String) :
    ∀ (recs : List TranscriptionRecord) (store : List TranscriptionRecord)
      (i : Int), i ∈ recs.map (fun r => r.id) →
      ∀ x ∈ recs.foldl (fun s r =>
          UpdateProcessedTranscription s r.id sent spk cs) store,
        SentinelAt i sent spk x := by
  intro recs
  induction recs with
  | nil => intro store i hi; simp at hi
  | cons r rest ih =>
    intro store i hi x hx
    rcases List.mem_map.mp hi with ⟨y, hy, hyi⟩
    rcases List.mem_cons.mp hy with hyr | hyrest
    · refine sentinelAt_foldUpdate i sent spk cs rest _ ?_ x hx
      rw [← hyi, hyr]
      exact sentinelAt_update_self r.id sent spk cs store
    · exact ih _ i (List.mem_map.mpr ⟨y, hyrest, hyi⟩) x hx

theorem mem_orderedInsert (r x : TranscriptionRecord)
    (l : List TranscriptionRecord) (hx : x ∈ orderedInsert r l) :
    x = r ∨ x ∈ l := by
  induction l with
  | nil => simpa [orderedInsert] using hx
  | cons y ys ih =>
    unfold orderedInsert at hx
    split at hx
    · rcases List.mem_cons.mp hx with h | h
      · exact Or.inl h
      · exact Or.inr h
    · rcases List.mem_cons.mp hx with h | h
      · exact Or.inr (by simp [h])
      · rcases ih h with h' | h'
        · exact Or.inl h'
        · exact Or.inr (List.mem_cons_of_mem _ h')

theorem mem_sortByCreatedAt (x : TranscriptionRecord)
    (l : List TranscriptionRecord) (hx : x ∈ sortByCreatedAt l) : x ∈ l := by
  induction l with
  | nil => simp [sortByCreatedAt] at hx
  | cons y ys ih =>
    unfold sortByCreatedAt at hx
    rcases mem_orderedInsert y x _ hx with h | h
    · simp [h]
    · exact List.mem_cons_of_mem _ (ih h)

theorem mem_getUnprocessed (store : List TranscriptionRecord) (batchSize : ℕ)
    (x : TranscriptionRecord)
    (hx : x ∈ GetUnprocessedTranscriptions store batchSize) :
    x ∈ store ∧ x.isProcessed = false := by
  unfold GetUnprocessedTranscriptions at hx
  have h1 := mem_sortByCreatedAt x _ (List.mem_of_mem_take hx)
  have h2 := List.mem_filter.mp h1
  exact ⟨h2.1, by simpa using h2.2⟩

/-- C1: on a tick with a non-empty unprocessed batch, if the template render
fails, the model call fails, or the call returns an empty result list, then
every store row belonging to the batch ends with the corresponding sentinel
processed text (`[TEMPLATE_RENDER_FAILED]`, `[PROCESSING_FAILED]`,
`[NO_RESULTS_FROM_API]`), speaker `UNKNOWN` and `is_processed = true`, and
no batch row is picked up by the next tick's unprocessed query. -/
theorem processNextBatch_poison_pill
    (store : List TranscriptionRecord) (batchSize : ℕ)
    (contextRecords : List TranscriptionRecord)
    (renderTemplate : Except String String)
    (callModel : String → Except String (List TranscriptionBatch))
    (sentinel : String)
    (hne : GetUnprocessedTranscriptions store batchSize ≠ [])
    (hfail :
      (∃ e, renderTemplate = .error e ∧ sentinel = "[TEMPLATE_RENDER_FAILED]") ∨
      (∃ sp e, renderTemplate = .ok sp ∧ callModel sp = .error e ∧
        sentinel = "[PROCESSING_FAILED]") ∨
      (∃ sp, renderTemplate = .ok sp ∧ callModel sp = .ok [] ∧
        sentinel = "[NO_RESULTS_FROM_API]")) :
    (∀ rec ∈ (processNextBatch store batchSize contextRecords renderTemplate
        callModel).1,
      rec.id ∈ (GetUnprocessedTranscriptions store batchSize).map
        (fun r => r.id) →
      rec.contentProcessed = sentinel ∧ rec.speakerType = "UNKNOWN" ∧
        rec.isProcessed = true) ∧
    ∀ i ∈ (GetUnprocessedTranscriptions store batchSize).map (fun r => r.id),
      i ∉ (GetUnprocessedTranscriptions (processNextBatch store batchSize
        contextRecords renderTemplate callModel).1 batchSize).map
        (fun r => r.id) := by
  have hne2 : (GetUnprocessedTranscriptions store batchSize).isEmpty = false := by
    simpa [List.isEmpty_iff] using hne
  have hmain : ∀ rec ∈ (processNextBatch store batchSize contextRecords
      renderTemplate callModel).1,
      rec.id ∈ (GetUnprocessedTranscriptions store batchSize).map
        (fun r => r.id) →
      rec.contentProcessed = sentinel ∧ rec.speakerType = "UNKNOWN" ∧
        rec.isProcessed = true := by
    intro rec hrec hid
    rcases hfail with ⟨e, hr, hs⟩ | ⟨sp, e, hr, hcall, hs⟩ | ⟨sp, hr, hcall, hs⟩
    · subst hs
      rw [processNextBatch.eq_def, hr] at hrec
      simp only [hne2, Bool.false_eq_true, if_false] at hrec
      exact foldUpdate_sentinel _ _ _ _ store rec.id hid rec hrec rfl
    · subst hs
      rw [processNextBatch.eq_def, hr] at hrec
      simp only [hne2, Bool.false_eq_true, if_false, hcall] at hrec
      exact foldUpdate_sentinel _ _ _ _ store rec.id hid rec hrec rfl
    · subst hs
      rw [processNextBatch.eq_def, hr] at hrec
      simp only [hne2, Bool.false_eq_true, if_false, hcall, List.isEmpty_nil,
        if_true] at hrec
      exact foldUpdate_sentinel _ _ _ _ store rec.id hid rec hrec rfl
  refine ⟨hmain, ?_⟩
  intro i hi hcontra
  obtain ⟨rec, hrec, hrecid⟩ := List.mem_map.mp hcontra
  obtain ⟨hrecmem, hrecproc⟩ := mem_getUnprocessed _ _ _ hrec
  have := hmain rec hrecmem (hrecid ▸ hi)
  rw [this.2.2] at hrecproc
  exact Bool.noConfusion hrecproc

/-- Witness for C1 at a concrete input: template rendering fails, so the
single unprocessed row is written with `[TEMPLATE_RENDER_FAILED]` / `UNKNOWN`
and marked processed, and the next tick's query no longer returns it. -/
theorem processNextBatch_poison_pill_witness :
    (∀ rec ∈ (processNextBatch storeW 10 [] (Except.error "no template")
        (fun _ => Except.ok [])).1,
      rec.id ∈ (GetUnprocessedTranscriptions storeW 10).map (fun r => r.id) →
      rec.contentProcessed = "[TEMPLATE_RENDER_FAILED]" ∧
        rec.speakerType = "UNKNOWN" ∧ rec.isProcessed = true) ∧
    ∀ i ∈ (GetUnprocessedTranscriptions storeW 10).map (fun r => r.id),
      i ∉ (GetUnprocessedTranscriptions (processNextBatch storeW 10 []
        (Except.error "no template") (fun _ => Except.ok [])).1 10).map
        (fun r => r.id) :=
  processNextBatch_poison_pill storeW 10 [] (Except.error "no template")
    (fun _ => Except.ok []) "[TEMPLATE_RENDER_FAILED]" (by decide)
    (Or.inl ⟨"no template", rfl, rfl⟩)

end CoATC
